import Mathlib

/-!
Verification of the scheduling / conflict-detection core of the damlee
repository: the room-booking overlap check in
`src/backend/src/router/bookings.ts` (`bookingsRouter.create`) and the
event conflict query in `src/backend/src/router/events.ts`
(`eventsRouter.checkConflicts`), over a shallow embedding.

Timestamps (JavaScript `Date` values) are modelled as integers
(milliseconds since the epoch); document ids as naturals; the Mongo
collections as Lean lists, with `findOne` as `List.find?` and `find` as
`List.filter` in document (natural) order.
-/

namespace Damlee

/-- Booking status enum from `src/backend/src/models/Booking.ts`:
`["pending", "confirmed", "cancelled", "rejected"]`. -/
inductive BookingStatus where
  | pending
  | confirmed
  | cancelled
  | rejected
deriving DecidableEq, Repr

/-- The fields of the Booking document read or written by
`bookingsRouter.create` and its overlap query (`room`, `status`,
`startTime`, `endTime`), plus the document id. -/
structure Booking where
  id : Nat
  room : Nat
  startTime : Int
  endTime : Int
  status : BookingStatus
deriving DecidableEq, Repr

/-- Event status enum from `eventSchema` in
`src/backend/src/router/events.ts`:
`["scheduled", "in-progress", "completed", "cancelled"]`. -/
inductive EventStatus where
  | scheduled
  | inProgress
  | completed
  | cancelled
deriving DecidableEq, Repr

/-- The fields of the Event document read by `eventsRouter.checkConflicts`
(`start`, `end`, `_id`) plus `status` (stored on every event but not
consulted by the conflict query). -/
structure Event where
  id : Nat
  start : Int
  «end» : Int
  status : EventStatus
deriving DecidableEq, Repr

/-- A half-open interval value, as in spec section 3. -/
structure Interval where
  start : Int
  «end» : Int
deriving DecidableEq, Repr

/-- The interval part of the booking overlap query in
`bookingsRouter.create` (bookings.ts line 57):
`{ startTime: { $lt: end }, endTime: { $gt: start } }`,
for an existing interval `[s, e)` against the candidate `[S, E)`. -/
def bookingOverlapClause (s e S E : Int) : Bool :=
  decide (s < E) && decide (e > S)

/-- The `$or` of the event conflict query in `eventsRouter.checkConflicts`
(events.ts lines 158-162):
`start ∈ [S, E)` or `end ∈ (S, E]` or (`start ≤ S` and `end ≥ E`),
for an existing interval `[s, e)` against the candidate `[S, E)`. -/
def eventOverlapClause (s e S E : Int) : Bool :=
  (decide (s < E) && decide (s ≥ S)) ||
  (decide (e > S) && decide (e ≤ E)) ||
  (decide (s ≤ S) && decide (e ≥ E))

/-- The spec's normalized predicate (section 4.1):
`overlaps(a, b) = a.start < b.end && b.start < a.end`. -/
def overlaps (a b : Interval) : Bool :=
  decide (a.start < b.«end») && decide (b.start < a.«end»)

/-- The full filter of the booking overlap query (bookings.ts lines 53-59):
same room, status not "cancelled", and the interval clause. -/
def bookingMatchesOverlapQuery (roomId : Nat) (S E : Int) (b : Booking) : Bool :=
  b.room == roomId && !(b.status == BookingStatus.cancelled) &&
    bookingOverlapClause b.startTime b.endTime S E

/-- `Booking.findOne` on the overlap query: the first matching document. -/
def findOneOverlap (store : List Booking) (roomId : Nat) (S E : Int) : Option Booking :=
  store.find? (bookingMatchesOverlapQuery roomId S E)

/-- The input fields of `bookingsRouter.create` consulted by the handler's
room check and overlap query. The zod schema validates only that
`startTime` and `endTime` are datetime strings; it imposes no ordering
between them. -/
structure BookingCreateInput where
  roomId : Nat
  startTime : Int
  endTime : Int
deriving DecidableEq, Repr

/-- The handler of `bookingsRouter.create` (bookings.ts lines 42-72):
look up the room, run the overlap query, and either throw or persist a
new booking with status "confirmed". `rooms` is the set of existing room
ids; `newId` the id Mongo assigns to the created document. On success the
result carries the created booking and the updated store. -/
def bookingsCreate (rooms : List Nat) (store : List Booking)
    (inp : BookingCreateInput) (newId : Nat) :
    Except String (Booking × List Booking) :=
  if rooms.contains inp.roomId then
    match findOneOverlap store inp.roomId inp.startTime inp.endTime with
    | some _ => .error "Room is already booked for this time slot"
    | none =>
        let b : Booking :=
          ⟨newId, inp.roomId, inp.startTime, inp.endTime, BookingStatus.confirmed⟩
        .ok (b, store ++ [b])
  else .error "Room not found"

/-- The full filter of the event conflict query (events.ts lines 156-167):
the three-branch `$or`, plus `_id ≠ excludeId` when an exclude id is
supplied. No status filter appears in the query. -/
def eventMatchesConflictQuery (S E : Int) (excludeId : Option Nat) (ev : Event) : Bool :=
  (match excludeId with
   | some i => !(ev.id == i)
   | none => true) &&
  eventOverlapClause ev.start ev.«end» S E

/-- `Event.find` on the conflict query (events.ts line 169): all matching
documents in store order — the handler applies no sort. -/
def eventCheckConflicts (store : List Event) (S E : Int)
    (excludeId : Option Nat) : List Event :=
  store.filter (eventMatchesConflictQuery S E excludeId)

/-- The ordering the spec prescribes for `ConflictResult.conflicts`
(section 3): ascending by interval start, ties broken by reservation id. -/
def eventOrderLE (a b : Event) : Bool :=
  decide (a.start < b.start) ||
  (decide (a.start = b.start) && decide (a.id ≤ b.id))

/-- Whether a conflict list is sorted per the spec's ordering rule. -/
def conflictsSortedBySpec : List Event → Bool
  | [] => true
  | [_] => true
  | a :: b :: t => eventOrderLE a b && conflictsSortedBySpec (b :: t)

/-! ### Shared helper lemmas -/

/-- The membership characterization of the booking overlap query's filter. -/
theorem bookingMatchesOverlapQuery_eq_true (roomId : Nat) (S E : Int) (b : Booking) :
    bookingMatchesOverlapQuery roomId S E b = true ↔
      b.room = roomId ∧ b.status ≠ BookingStatus.cancelled ∧
        b.startTime < E ∧ S < b.endTime := by
  simp [bookingMatchesOverlapQuery, bookingOverlapClause, and_assoc]

/-- `findOneOverlap` finds a document exactly when a matching one exists. -/
theorem findOneOverlap_isSome_iff (store : List Booking) (roomId : Nat) (S E : Int) :
    (findOneOverlap store roomId S E).isSome = true ↔
      ∃ b ∈ store, b.room = roomId ∧ b.status ≠ BookingStatus.cancelled ∧
        b.startTime < E ∧ S < b.endTime := by
  rw [findOneOverlap, List.find?_isSome]
  constructor
  · rintro ⟨b, hb, hmatch⟩
    exact ⟨b, hb, (bookingMatchesOverlapQuery_eq_true roomId S E b).mp hmatch⟩
  · rintro ⟨b, hb, hprop⟩
    exact ⟨b, hb, (bookingMatchesOverlapQuery_eq_true roomId S E b).mpr hprop⟩

/-! ### Claims -/

/-- C9: the overlap predicate is commutative — for every pair of intervals
`a` and `b`, `overlaps a b = overlaps b a`, where `overlaps` is the
half-open test `a.start < b.end && b.start < a.end` realized by the
booking query's interval clause. -/
theorem overlaps_comm (a b : Interval) :
    overlaps a b = overlaps b a ∧
    overlaps a b = bookingOverlapClause a.start a.«end» b.start b.«end» := by
  exact ⟨Bool.and_comm _ _, rfl⟩

/-- C2: on valid intervals (`start < end` on each side), the booking
query's two-clause interval test and the event query's three-branch `$or`
decide the same relation, both equal to the spec's half-open `overlaps`
rule of section 4.1. -/
theorem overlap_queries_equivalent (s e S E : Int) (hse : s < e) (hSE : S < E) :
    bookingOverlapClause s e S E = eventOverlapClause s e S E ∧
    bookingOverlapClause s e S E = overlaps ⟨s, e⟩ ⟨S, E⟩ := by
  constructor
  · rw [Bool.eq_iff_iff]
    simp only [bookingOverlapClause, eventOverlapClause, Bool.and_eq_true,
      Bool.or_eq_true, decide_eq_true_eq, ge_iff_le, gt_iff_lt]
    omega
  · rfl

/-- Witness for C2 at concrete valid intervals. -/
theorem overlap_queries_equivalent_witness :
    (0 : Int) < 10 ∧ (5 : Int) < 15 ∧
      (bookingOverlapClause 0 10 5 15 = eventOverlapClause 0 10 5 15 ∧
       bookingOverlapClause 0 10 5 15 = overlaps ⟨0, 10⟩ ⟨5, 15⟩) :=
  ⟨by decide, by decide,
    overlap_queries_equivalent 0 10 5 15 (by decide) (by decide)⟩

/-- C6: self-exclusion — when `excludeId` is supplied, the event with that
id is filtered out of the candidate set, so a stored event is never
reported as conflicting with itself, whatever the candidate interval. -/
theorem checkConflicts_self_exclusion (store : List Event) (S E : Int) (R : Event) :
    R ∉ eventCheckConflicts store S E (some R.id) := by
  intro hmem
  rw [eventCheckConflicts, List.mem_filter] at hmem
  have h := hmem.2
  simp [eventMatchesConflictQuery] at h

/-- Witness for C6: a stored event whose interval equals the candidate is
not reported when its own id is excluded. -/
theorem checkConflicts_self_exclusion_witness :
    (⟨1, 9, 10, EventStatus.scheduled⟩ : Event) ∉
      eventCheckConflicts [⟨1, 9, 10, EventStatus.scheduled⟩] 9 10 (some 1) :=
  checkConflicts_self_exclusion [⟨1, 9, 10, EventStatus.scheduled⟩] 9 10
    ⟨1, 9, 10, EventStatus.scheduled⟩

/-- C5 counterexample: the event conflict query applies no sort, so with
two conflicting events stored out of start order the returned list is not
sorted ascending by start time. -/
theorem checkConflicts_unsorted_cex :
    conflictsSortedBySpec
      (eventCheckConflicts
        [⟨1, 5, 6, EventStatus.scheduled⟩, ⟨2, 0, 10, EventStatus.scheduled⟩]
        0 20 none) = false := by
  decide

/-- C5 amended: the conflict query returns the matching events in store
order — the result is always an order-preserving subsequence of the
store (hence deterministic for a fixed store), but no sort by start time
or id is applied. -/
theorem checkConflicts_store_order (store : List Event) (S E : Int)
    (excludeId : Option Nat) :
    List.Sublist (eventCheckConflicts store S E excludeId) store :=
  List.filter_sublist store

/-- C1: given the room exists, `bookingsRouter.create` rejects with the
conflict error exactly when some non-cancelled booking for the same room
satisfies `startTime < candidate end` and `endTime > candidate start`; in
particular a booking touching the candidate only at a boundary never
matches the query, so back-to-back bookings are accepted. -/
theorem bookingsCreate_conflict_iff (rooms : List Nat) (store : List Booking)
    (inp : BookingCreateInput) (newId : Nat)
    (hroom : rooms.contains inp.roomId = true) :
    (bookingsCreate rooms store inp newId =
        .error "Room is already booked for this time slot" ↔
      ∃ b ∈ store, b.room = inp.roomId ∧ b.status ≠ BookingStatus.cancelled ∧
        b.startTime < inp.endTime ∧ inp.startTime < b.endTime) ∧
    (∀ b ∈ store,
      (b.endTime = inp.startTime ∨ b.startTime = inp.endTime) →
        bookingMatchesOverlapQuery inp.roomId inp.startTime inp.endTime b = false) := by
  constructor
  · rw [← findOneOverlap_isSome_iff store inp.roomId inp.startTime inp.endTime]
    rw [bookingsCreate, if_pos hroom]
    cases hfind : findOneOverlap store inp.roomId inp.startTime inp.endTime with
    | none => simp [hfind]
    | some b => simp [hfind]
  · intro b _ hb
    rw [Bool.eq_false_iff]
    intro hmatch
    have h := (bookingMatchesOverlapQuery_eq_true inp.roomId inp.startTime
      inp.endTime b).mp hmatch
    rcases hb with hb | hb
    · exact absurd h.2.2.2 (by rw [hb]; exact lt_irrefl _)
    · exact absurd h.2.2.1 (by rw [hb]; exact lt_irrefl _)

/-- Witness for C1: room 1 exists; a confirmed booking on room 1 over
`[0, 10)` conflicts with candidate `[5, 15)`, and bookings touching the
candidate only at a boundary never match. -/
theorem bookingsCreate_conflict_iff_witness :
    ([1] : List Nat).contains 1 = true ∧
    ((bookingsCreate [1] [⟨7, 1, 0, 10, BookingStatus.confirmed⟩] ⟨1, 5, 15⟩ 8 =
        .error "Room is already booked for this time slot" ↔
      ∃ b ∈ [(⟨7, 1, 0, 10, BookingStatus.confirmed⟩ : Booking)],
        b.room = 1 ∧ b.status ≠ BookingStatus.cancelled ∧
          b.startTime < 15 ∧ (5 : Int) < b.endTime) ∧
    (∀ b ∈ [(⟨7, 1, 0, 10, BookingStatus.confirmed⟩ : Booking)],
      (b.endTime = 5 ∨ b.startTime = 15) →
        bookingMatchesOverlapQuery 1 5 15 b = false)) :=
  ⟨by decide,
    bookingsCreate_conflict_iff [1] [⟨7, 1, 0, 10, BookingStatus.confirmed⟩]
      ⟨1, 5, 15⟩ 8 (by decide)⟩

/-- C4: room-booking conflicts are a hard rejection with no persistence —
when the room exists and a non-cancelled booking on the same room overlaps
the candidate, `create` returns the conflict error and no booking is
inserted; when none overlaps, the new booking is appended to the store and
returned. -/
theorem bookingsCreate_hard_rejection (rooms : List Nat) (store : List Booking)
    (inp : BookingCreateInput) (newId : Nat)
    (hroom : rooms.contains inp.roomId = true) :
    ((∃ b ∈ store, b.room = inp.roomId ∧ b.status ≠ BookingStatus.cancelled ∧
        b.startTime < inp.endTime ∧ inp.startTime < b.endTime) →
      bookingsCreate rooms store inp newId =
        .error "Room is already booked for this time slot") ∧
    ((∀ b ∈ store, ¬(b.room = inp.roomId ∧ b.status ≠ BookingStatus.cancelled ∧
        b.startTime < inp.endTime ∧ inp.startTime < b.endTime)) →
      bookingsCreate rooms store inp newId =
        .ok (⟨newId, inp.roomId, inp.startTime, inp.endTime, BookingStatus.confirmed⟩,
          store ++ [⟨newId, inp.roomId, inp.startTime, inp.endTime,
            BookingStatus.confirmed⟩])) := by
  constructor
  · intro hex
    exact (bookingsCreate_conflict_iff rooms store inp newId hroom).1.mpr hex
  · intro hnone
    have hnot : ¬ (findOneOverlap store inp.roomId inp.startTime inp.endTime).isSome = true := by
      rw [findOneOverlap_isSome_iff]
      rintro ⟨b, hb, hprop⟩
      exact hnone b hb hprop
    rw [bookingsCreate, if_pos hroom]
    cases hfind : findOneOverlap store inp.roomId inp.startTime inp.endTime with
    | none => rfl
    | some b => exact absurd (by rw [hfind]; rfl) hnot

/-- Witness for C4: with no overlapping booking stored, the candidate is
persisted; the rejection branch is exercised by the C1 witness store. -/
theorem bookingsCreate_hard_rejection_witness :
    ([1] : List Nat).contains 1 = true ∧
    (((∃ b ∈ [(⟨7, 1, 20, 30, BookingStatus.confirmed⟩ : Booking)],
        b.room = 1 ∧ b.status ≠ BookingStatus.cancelled ∧
          b.startTime < 15 ∧ (5 : Int) < b.endTime) →
      bookingsCreate [1] [⟨7, 1, 20, 30, BookingStatus.confirmed⟩] ⟨1, 5, 15⟩ 8 =
        .error "Room is already booked for this time slot") ∧
    ((∀ b ∈ [(⟨7, 1, 20, 30, BookingStatus.confirmed⟩ : Booking)],
        ¬(b.room = 1 ∧ b.status ≠ BookingStatus.cancelled ∧
          b.startTime < 15 ∧ (5 : Int) < b.endTime)) →
      bookingsCreate [1] [⟨7, 1, 20, 30, BookingStatus.confirmed⟩] ⟨1, 5, 15⟩ 8 =
        .ok (⟨8, 1, 5, 15, BookingStatus.confirmed⟩,
          [⟨7, 1, 20, 30, BookingStatus.confirmed⟩] ++
            [⟨8, 1, 5, 15, BookingStatus.confirmed⟩]))) :=
  ⟨by decide,
    bookingsCreate_hard_rejection [1] [⟨7, 1, 20, 30, BookingStatus.confirmed⟩]
      ⟨1, 5, 15⟩ 8 (by decide)⟩

/-- C8: resource isolation — the booking overlap query matches only
bookings whose room equals the candidate's room, so when every stored
booking is on some other room the query finds nothing, however the
intervals overlap. -/
theorem bookings_resource_isolation (store : List Booking) (roomId : Nat)
    (S E : Int) (h : ∀ b ∈ store, b.room ≠ roomId) :
    (∀ b : Booking, b.room ≠ roomId →
      bookingMatchesOverlapQuery roomId S E b = false) ∧
    findOneOverlap store roomId S E = none := by
  have hfalse : ∀ b : Booking, b.room ≠ roomId →
      bookingMatchesOverlapQuery roomId S E b = false := by
    intro b hb
    rw [Bool.eq_false_iff]
    intro hmatch
    exact hb ((bookingMatchesOverlapQuery_eq_true roomId S E b).mp hmatch).1
  refine ⟨hfalse, ?_⟩
  rw [findOneOverlap, List.find?_eq_none]
  intro b hb
  rw [hfalse b (h b hb)]
  exact Bool.false_ne_true

/-- Witness for C8: a booking on room 2 covering the candidate interval is
never found by the query for room 1. -/
theorem bookings_resource_isolation_witness :
    (∀ b : Booking, b.room ≠ 1 → bookingMatchesOverlapQuery 1 5 15 b = false) ∧
    findOneOverlap [⟨7, 2, 0, 100, BookingStatus.confirmed⟩] 1 5 15 = none :=
  bookings_resource_isolation [⟨7, 2, 0, 100, BookingStatus.confirmed⟩] 1 5 15
    (by decide)

/-- C10: the overlap query filters only `status ≠ "cancelled"`, so an
overlapping booking whose status is "pending" or "rejected" still blocks
the slot — `create` rejects a candidate overlapping such a booking. -/
theorem nonCancelled_blocks_slot (rooms : List Nat) (store : List Booking)
    (inp : BookingCreateInput) (newId : Nat) (b : Booking)
    (hroom : rooms.contains inp.roomId = true) (hb : b ∈ store)
    (hbroom : b.room = inp.roomId)
    (hstatus : b.status = BookingStatus.pending ∨ b.status = BookingStatus.rejected)
    (hov : b.startTime < inp.endTime ∧ inp.startTime < b.endTime) :
    bookingsCreate rooms store inp newId =
      .error "Room is already booked for this time slot" := by
  apply (bookingsCreate_conflict_iff rooms store inp newId hroom).1.mpr
  refine ⟨b, hb, hbroom, ?_, hov.1, hov.2⟩
  rcases hstatus with hs | hs <;> simp [hs]

/-- Witness for C10: a rejected booking on room 1 over `[0, 10)` blocks a
candidate `[5, 15)` for room 1. -/
theorem nonCancelled_blocks_slot_witness :
    bookingsCreate [1] [⟨7, 1, 0, 10, BookingStatus.rejected⟩] ⟨1, 5, 15⟩ 8 =
      .error "Room is already booked for this time slot" :=
  nonCancelled_blocks_slot [1] [⟨7, 1, 0, 10, BookingStatus.rejected⟩]
    ⟨1, 5, 15⟩ 8 ⟨7, 1, 0, 10, BookingStatus.rejected⟩ (by decide)
    (by decide) rfl (Or.inr rfl) ⟨by decide, by decide⟩

/-- C3 counterexample: the event conflict query applies no status filter,
so a stored event with status "cancelled" and an interval identical to the
candidate is still reported as a conflict — refuting that cancelled
reservations are excluded in every conflict check. -/
theorem cancelled_event_still_conflicts_cex :
    (⟨1, 0, 10, EventStatus.cancelled⟩ : Event) ∈
      eventCheckConflicts [⟨1, 0, 10, EventStatus.cancelled⟩] 0 10 none := by
  decide

/-- C3 amended: the booking overlap query excludes cancelled bookings
unconditionally — a store of only cancelled bookings yields no conflict —
but the event conflict query applies no status filter, so every stored
event whose interval matches the query is reported, cancelled ones
included. -/
theorem cancelled_filter_bookings_only (store : List Booking)
    (estore : List Event) (roomId : Nat) (S E : Int) (ev : Event)
    (hb : ∀ b ∈ store, b.status = BookingStatus.cancelled)
    (hev : ev ∈ estore)
    (hovl : eventOverlapClause ev.start ev.«end» S E = true) :
    findOneOverlap store roomId S E = none ∧
    ev ∈ eventCheckConflicts estore S E none := by
  constructor
  · rw [findOneOverlap, List.find?_eq_none]
    intro b hbmem
    rw [Bool.not_eq_true, Bool.eq_false_iff]
    intro hmatch
    exact ((bookingMatchesOverlapQuery_eq_true roomId S E b).mp hmatch).2.1 (hb b hbmem)
  · rw [eventCheckConflicts, List.mem_filter]
    exact ⟨hev, by simpa [eventMatchesConflictQuery] using hovl⟩

/-- Witness for C3 amended: a cancelled booking with interval identical to
the candidate yields no conflict, while a cancelled event with the same
interval is still reported. -/
theorem cancelled_filter_bookings_only_witness :
    findOneOverlap [⟨7, 1, 0, 10, BookingStatus.cancelled⟩] 1 0 10 = none ∧
    (⟨2, 0, 10, EventStatus.cancelled⟩ : Event) ∈
      eventCheckConflicts [⟨2, 0, 10, EventStatus.cancelled⟩] 0 10 none :=
  cancelled_filter_bookings_only [⟨7, 1, 0, 10, BookingStatus.cancelled⟩]
    [⟨2, 0, 10, EventStatus.cancelled⟩] 1 0 10
    ⟨2, 0, 10, EventStatus.cancelled⟩ (by decide) (by decide) (by decide)

/-- C7 counterexample: no construction-time check rejects `end ≤ start` —
`bookingsRouter.create` accepts a candidate with `endTime = 3 < 5 =
startTime` against an empty store and persists the reversed booking. -/
theorem reversed_interval_persisted_cex :
    bookingsCreate [1] [] ⟨1, 5, 3⟩ 0 =
      .ok (⟨0, 1, 5, 3, BookingStatus.confirmed⟩,
        [⟨0, 1, 5, 3, BookingStatus.confirmed⟩]) ∧
    ¬ ((5 : Int) < 3) := by
  exact ⟨rfl, by decide⟩

/-- C7 amended: neither the booking handler nor the event schema validates
`start < end` (only datetime string format is checked), so a reversed or
empty interval reaches the overlap query, and whenever that query finds no
conflicting booking the reversed booking is persisted. -/
theorem no_interval_validation (rooms : List Nat) (store : List Booking)
    (inp : BookingCreateInput) (newId : Nat)
    (hroom : rooms.contains inp.roomId = true)
    (hrev : inp.endTime ≤ inp.startTime)
    (hnc : findOneOverlap store inp.roomId inp.startTime inp.endTime = none) :
    bookingsCreate rooms store inp newId =
      .ok (⟨newId, inp.roomId, inp.startTime, inp.endTime, BookingStatus.confirmed⟩,
        store ++ [⟨newId, inp.roomId, inp.startTime, inp.endTime,
          BookingStatus.confirmed⟩]) := by
  rw [bookingsCreate, if_pos hroom, hnc]

/-- Witness for C7 amended: an empty interval (`start = end = 5`) on an
empty store is persisted. -/
theorem no_interval_validation_witness :
    ([1] : List Nat).contains 1 = true ∧ (5 : Int) ≤ 5 ∧
    bookingsCreate [1] [] ⟨1, 5, 5⟩ 0 =
      .ok (⟨0, 1, 5, 5, BookingStatus.confirmed⟩,
        [] ++ [⟨0, 1, 5, 5, BookingStatus.confirmed⟩]) :=
  ⟨by decide, by decide,
    no_interval_validation [1] [] ⟨1, 5, 5⟩ 0 (by decide) (by decide) rfl⟩

end Damlee
